import Mathlib

/-!
Shallow embedding of the SonarQube-to-Jira synchronization service
(src/service/sonar_to_jira_service.js, src/utils/microservice.utils.js).

JavaScript objects keyed by strings are embedded as insertion-ordered
association lists (`objGet` / `objSet`), HTTP calls are embedded as
environments mapping each request to the outcome of each fetch attempt,
and `fetchWithRetry` is translated as a fuel-indexed loop over those
attempt outcomes.  Exceptions are embedded with `Except`.
-/

namespace SonarJira

/-! ### JavaScript object maps (string-keyed, insertion ordered) -/

/-- Property read `m[k]`: `none` when the key is absent. -/
def objGet {β : Type} : List (String × β) → String → Option β
  | [], _ => none
  | (a, v) :: rest, k => if a = k then some v else objGet rest k

/-- Property write `m[k] = v`: overwrite the first binding of `k`,
or append a fresh binding when `k` is absent. -/
def objSet {β : Type} : List (String × β) → String → β → List (String × β)
  | [], k, v => [(k, v)]
  | (a, w) :: rest, k, v =>
    if a = k then (k, v) :: rest else (a, w) :: objSet rest k v

/-! ### HTTP plumbing: node-fetch responses and `fetchWithRetry`
(src/utils/microservice.utils.js lines 94-106) -/

/-- A fetch response: `ok` is the 2xx flag, `status` the HTTP status,
`body` the parsed JSON payload. -/
structure HttpResponse (α : Type) where
  ok : Bool
  status : Nat
  body : α
  deriving Repr, DecidableEq

/-- Outcome of one fetch attempt: the network threw, or a response arrived. -/
inductive FetchOutcome (α : Type) where
  | netErr (msg : String)
  | resp (r : HttpResponse α)
  deriving Repr, DecidableEq

/-- The loop body of `fetchWithRetry`: `i` is the attempt index, the fuel is
`maxRetries - i`.  A non-ok response on the final attempt throws
`HTTP <status>`; a network error on the final attempt is rethrown; earlier
failures just move on to the next attempt.  When the loop exhausts without
returning (only possible when `maxRetries = 0`) the JS function returns
`undefined`, embedded as `.ok none`. -/
def fetchGo {α : Type} (attempts : Nat → FetchOutcome α) (i : Nat) :
    Nat → Except String (Option (HttpResponse α))
  | 0 => .ok none
  | fuel + 1 =>
    match attempts i with
    | .resp r =>
      if r.ok then .ok (some r)
      else if fuel = 0 then .error ("HTTP " ++ toString r.status)
      else fetchGo attempts (i + 1) fuel
    | .netErr msg =>
      if fuel = 0 then .error msg
      else fetchGo attempts (i + 1) fuel

/-- `fetchWithRetry(url, options, maxRetries)`: the url/options pair is
abstracted into the per-attempt outcome function `attempts`. -/
def fetchWithRetry {α : Type} (attempts : Nat → FetchOutcome α) (maxRetries : Nat) :
    Except String (Option (HttpResponse α)) :=
  fetchGo attempts 0 maxRetries

/-! ### Batch splitting (`for (let i = 0; i < keys.length; i += maxBatchSize)`) -/

/-- Fuel-driven worker for `chunksOf`; the fuel starts at the list length,
which suffices because each step removes at least one element when `0 < n`. -/
def chunksOfGo {α : Type} (n : Nat) : Nat → List α → List (List α)
  | 0, _ => []
  | _ + 1, [] => []
  | fuel + 1, a :: l => (a :: l).take n :: chunksOfGo n fuel ((a :: l).drop n)

/-- Split a list into consecutive slices of size `n` (last one may be short). -/
def chunksOf {α : Type} (n : Nat) (l : List α) : List (List α) :=
  chunksOfGo n l.length l

/-! ### Resolution Reconciliation Engine: `checkMultipleIssuesResolved`
(src/service/sonar_to_jira_service.js lines 479-633) -/

/-- One element of `issueData.issues` as read by the engine (only `key`). -/
structure SonarIssueRef where
  key : String
  deriving Repr, DecidableEq

/-- Parsed body of `/api/hotspots/show`: an `errors` array signals a
resolved/absent hotspot, a truthy `key` signals an existing hotspot. -/
structure HotspotShowBody where
  errors : List String
  key : Option String
  deriving Repr, DecidableEq

/-- JavaScript truthiness of an optional string field. -/
def truthyString : Option String → Bool
  | some s => decide (s ≠ "")
  | none => false

/-- The SonarQube side of the network, as seen by the reconciliation engine:
for each batched unresolved-issues search and each individual hotspot-show
query, the outcome of every retry attempt. -/
structure SonarEnv where
  issuesSearchAttempts : List String → Nat → FetchOutcome (List SonarIssueRef)
  hotspotShowAttempts : String → Nat → FetchOutcome HotspotShowBody

/-- The per-identifier resolution map (`resolvedStatus`). -/
abbrev StatusMap := List (String × Bool)

/-- The keys the batched issues search reports as still unresolved: empty when
the call failed, returned a non-2xx response, or (vacuously) returned
`undefined`.  Lines 498-526. -/
def issuesPhaseFinds (env : SonarEnv) (batch : List String) : List String :=
  match fetchWithRetry (env.issuesSearchAttempts batch) 3 with
  | .ok (some r) => if r.ok then r.body.map SonarIssueRef.key else []
  | _ => []

/-- Whether the individual hotspot-show query for `k` reports the hotspot as
found and not resolved (ok response, no `errors`, truthy `key`); every error
path counts as not-found.  Lines 536-577. -/
def hotspotFindsActive (env : SonarEnv) (k : String) : Bool :=
  match fetchWithRetry (env.hotspotShowAttempts k) 3 with
  | .ok (some r) => r.ok && r.body.errors.isEmpty && truthyString r.body.key
  | _ => false

/-- One iteration of the individual hotspot-show loop (lines 536-581): a found
and unresolved hotspot flips the key to ACTIVE (`false`); a reported-resolved
hotspot, a 404, any other HTTP error, and any thrown error all leave the map
unchanged (they only feed the `hotspotResolved` / `hotspotErrors` logs). -/
def hotspotStep (env : SonarEnv) (m : StatusMap) (k : String) : StatusMap :=
  match fetchWithRetry (env.hotspotShowAttempts k) 3 with
  | .ok (some r) =>
    if r.ok then
      if r.body.errors ≠ [] then m
      else if truthyString r.body.key then objSet m k false
      else m
    else m
  | .ok none => m
  | .error _ => m

/-- One batch of the engine (lines 492-598): first the batched issues search
flips every returned key to `false`; then every key of the batch still at
`true` is checked individually through the hotspot-show API. -/
def processBatch (env : SonarEnv) (m : StatusMap) (batch : List String) : StatusMap :=
  let m1 :=
    match fetchWithRetry (env.issuesSearchAttempts batch) 3 with
    | .ok (some r) =>
      if r.ok then (r.body.map SonarIssueRef.key).foldl (fun m k => objSet m k false) m
      else m
    | _ => m
  let keysToCheckAsHotspots := batch.filter (fun k => decide (objGet m1 k = some true))
  keysToCheckAsHotspots.foldl (hotspotStep env) m1

/-- The batch loop of the engine over the 50-element slices. -/
def batchLoop (env : SonarEnv) : List (List String) → StatusMap → StatusMap
  | [], m => m
  | b :: rest, m => batchLoop env rest (processBatch env m b)

/-- The body of the try block of the engine: initialize every requested key to
RESOLVED (`true`), then process the keys in batches of 50. -/
def checkCore (env : SonarEnv) (sonarKeys : List String) : StatusMap :=
  batchLoop env (chunksOf 50 sonarKeys)
    (sonarKeys.foldl (fun m k => objSet m k true) [])

/-- `checkMultipleIssuesResolved`: `crash` models an exception escaping the
whole `try` block (lines 619-632), in which case the `catch` builds a fresh
fallback map marking every requested key ACTIVE (`false`). -/
def checkMultipleIssuesResolved (env : SonarEnv) (crash : Option String)
    (sonarKeys : List String) : StatusMap :=
  match crash with
  | some _ => sonarKeys.foldl (fun m k => objSet m k false) []
  | none => checkCore env sonarKeys

/-- The three-way branch of the closure orchestration on the resolution
status (lines 1056-1080): `some true` closes, `some false` counts
not-resolved, a missing entry falls into the unknown-status error branch. -/
inductive TicketDecision where
  | closeTicket
  | notResolved
  | unknown
  deriving Repr, DecidableEq

/-- `const isResolved = resolvedStatusMap[sonarKey]` followed by the
`=== true` / `=== false` / otherwise branches. -/
def ticketDecision (rmap : StatusMap) (k : String) : TicketDecision :=
  match objGet rmap k with
  | some true => .closeTicket
  | some false => .notResolved
  | none => .unknown

/-! ### Jira ticket shapes: the `customfield_11972` reference field -/

/-- One text run of the reference-field document. -/
structure TextNode where
  text : String
  deriving Repr, DecidableEq

/-- One paragraph of the reference-field document. -/
structure AdfParagraph where
  content : List TextNode
  deriving Repr, DecidableEq

/-- The nested structured document stored in `customfield_11972`. -/
structure CustomFieldDoc where
  content : List AdfParagraph
  deriving Repr, DecidableEq

/-- A ticket as returned by the Jira search API with the projected fields
used by this service. -/
structure JiraSearchTicket where
  key : String
  customfield_11972 : Option CustomFieldDoc
  deriving Repr, DecidableEq

/-- Reference-field parse used while building the Existence Index
(lines 193-203): first paragraph, first text run, no trimming and no
emptiness check. -/
def extractSonarKeyCreate (t : JiraSearchTicket) : Option String :=
  match t.customfield_11972 with
  | some cf =>
    match cf.content with
    | p :: _ =>
      match p.content with
      | r :: _ => some r.text
      | [] => none
    | [] => none
  | none => none

/-- ASCII whitespace as stripped by JavaScript `String.prototype.trim`. -/
def isTrimmedSpace (c : Char) : Bool :=
  c = ' ' ∨ c = '\t' ∨ c = '\n' ∨ c = '\r'

/-- JavaScript `text.trim()`: strip leading and trailing whitespace. -/
def jsTrim (s : String) : String :=
  ⟨((s.data.dropWhile isTrimmedSpace).reverse.dropWhile isTrimmedSpace).reverse⟩

/-- Reference-field parse used by the closure orchestration
(lines 980-991 and 1041-1053): same shape checks, but the text is trimmed
and an empty result is rejected (`if (sonarKey)`). -/
def extractSonarKeyTrimmed (t : JiraSearchTicket) : Option String :=
  match t.customfield_11972 with
  | some cf =>
    match cf.content with
    | p :: _ =>
      match p.content with
      | r :: _ => if jsTrim r.text = "" then none else some (jsTrim r.text)
      | [] => none
    | [] => none
  | none => none

/-! ### Ticket Existence Index and Ticket Creation Engine: `createJiraTickets`
(src/service/sonar_to_jira_service.js lines 91-473) -/

/-- Body of a successful Jira create-issue response (only `key` is read). -/
structure JiraCreatedIssue where
  key : String
  deriving Repr, DecidableEq

/-- The Jira side of the network as seen by `createJiraTickets`: the batched
existence search per key slice, and the create-issue call per finding key. -/
structure JiraEnv where
  searchAttempts : List String → Nat → FetchOutcome (List JiraSearchTicket)
  createAttempts : String → Nat → FetchOutcome JiraCreatedIssue

/-- State of the Existence Index build: `existingTicketsMap` and the
`existingTickets` key list. -/
structure IndexState where
  map : List (String × String)
  existing : List String
  deriving Repr, DecidableEq

/-- Record one search-result ticket in the index (lines 190-207): on a
successful reference-field parse, map the Sonar key to the ticket key and
push the ticket key to `existingTickets` unless already present; an
unparseable field is skipped. -/
def addTicketToIndex (st : IndexState) (t : JiraSearchTicket) : IndexState :=
  match extractSonarKeyCreate t with
  | some sonarKey =>
    ⟨objSet st.map sonarKey t.key,
     if t.key ∈ st.existing then st.existing else st.existing ++ [t.key]⟩
  | none => st

/-- The Existence Index batch loop (lines 150-215).  The `try`/`catch` wraps
the whole `for` loop, so the first failing batch search (a thrown
`fetchWithRetry`, a non-ok response, or an `undefined` response) aborts the
remaining batches and keeps only the entries built so far. -/
def buildIndexLoop (env : JiraEnv) : List (List String) → IndexState → IndexState
  | [], st => st
  | b :: rest, st =>
    match fetchWithRetry (env.searchAttempts b) 3 with
    | .ok (some r) =>
      if r.ok then buildIndexLoop env rest (r.body.foldl addTicketToIndex st)
      else st
    | .ok none => st
    | .error _ => st

/-- `existingTicketsMap[sonarKey] || null` followed by a truthiness check:
an absent key and an empty-string value both count as "no existing ticket". -/
def checkIfTicketExists (map : List (String × String)) (sonarKey : String) :
    Option String :=
  match objGet map sonarKey with
  | some t => if t = "" then none else some t
  | none => none

/-- A SonarQube finding as consumed by the creation engine. -/
structure SonarItem where
  key : String
  project : String
  component : String
  message : String
  severity : String
  vulnerabilityProbability : String
  deriving Repr, DecidableEq

/-- Priority derivation of `createJiraTicket` (lines 296-309). -/
def determinePriority (itemType : String) (item : SonarItem) : String :=
  if itemType = "issue" then
    if item.severity = "BLOCKER" ∨ item.severity = "CRITICAL" then "Highest"
    else "High"
  else
    if item.vulnerabilityProbability = "HIGH" ∨ item.vulnerabilityProbability = "MEDIUM" then
      "Highest"
    else "High"

/-- `created` keys accumulated so far, plus the finding keys for which a
create-issue request was actually submitted (for stating that no request is
submitted for indexed findings). -/
structure CreateState where
  created : List String
  submitted : List String
  deriving Repr, DecidableEq

/-- `createJiraTicket` for one finding (lines 226-411), keyed on its dedup
behavior: an identifier with an existing ticket returns early without any
request; otherwise the create-issue call is submitted, a success pushes the
new ticket key, and a failure is caught by the per-finding handler in the
processing loops (lines 416-447) and skipped. -/
def createJiraTicketStep (env : JiraEnv) (indexMap : List (String × String))
    (st : CreateState) (item : SonarItem) : CreateState :=
  match checkIfTicketExists indexMap item.key with
  | some _ => st
  | none =>
    match fetchWithRetry (env.createAttempts item.key) 3 with
    | .ok (some r) =>
      if r.ok then ⟨st.created ++ [r.body.key], st.submitted ++ [item.key]⟩
      else ⟨st.created, st.submitted ++ [item.key]⟩
    | _ => ⟨st.created, st.submitted ++ [item.key]⟩

/-- Result shape of `createJiraTickets`. -/
structure CreateResult where
  created : List String
  existing : List String
  deriving Repr, DecidableEq

/-- The happy path of `createJiraTickets` (lines 136-457): collect all finding
keys, build the Existence Index in batches of 50, then process issues and
hotspots in order.  Also returns the submitted finding keys. -/
def createJiraTicketsRun (env : JiraEnv) (issues hotspots : List SonarItem) :
    CreateResult × List String :=
  let allSonarKeys := issues.map SonarItem.key ++ hotspots.map SonarItem.key
  let idx := buildIndexLoop env (chunksOf 50 allSonarKeys) ⟨[], []⟩
  let st := (issues ++ hotspots).foldl (createJiraTicketStep env idx.map) ⟨[], []⟩
  (⟨st.created, idx.existing⟩, st.submitted)

/-- `createJiraTickets` with its outer `catch` (lines 458-472).  `crash`
models an error thrown inside the `try` block after processing started
(for example a `TypeError` from `issues.map(issue => issue.key)` on a null
entry at line 141).  The catch block evaluates `createdTickets || []`, but
`createdTickets` and `existingTickets` are `const` bindings scoped to the
`try` block (lines 136-137) and are not visible in the `catch` block, so that
expression raises `ReferenceError: createdTickets is not defined`, which
propagates out of the function instead of the intended partial result. -/
def createJiraTickets (env : JiraEnv) (crash : Option String)
    (issues hotspots : List SonarItem) : Except String CreateResult :=
  match crash with
  | some _ => .error "ReferenceError: createdTickets is not defined"
  | none => .ok (createJiraTicketsRun env issues hotspots).1

/-! ### User Resolution Cache: `lookupJiraUsers`
(src/utils/microservice.utils.js lines 226-300) -/

/-- One element of the user-search response (only `accountId` is read). -/
structure JiraUser where
  accountId : String
  deriving Repr, DecidableEq

/-- The Jira user-search endpoint as seen by `lookupJiraUsers`. -/
structure UserEnv where
  userSearchAttempts : String → Nat → FetchOutcome (List JiraUser)

/-- Truthy cache read `userAccountCache[email]`. -/
def truthyLookup (cache : List (String × String)) (k : String) : Option String :=
  match objGet cache k with
  | some v => if v = "" then none else some v
  | none => none

/-- One iteration of the email loop (lines 246-290): skip cached emails; on an
ok response, a non-empty result array caches the accountId of the FIRST user and an
empty array leaves the email unresolved; HTTP errors and thrown errors are
caught per email and leave the cache unchanged. -/
def lookupStep (env : UserEnv) (cache : List (String × String)) (email : String) :
    List (String × String) :=
  match truthyLookup cache email with
  | some _ => cache
  | none =>
    match fetchWithRetry (env.userSearchAttempts email) 3 with
    | .ok (some r) =>
      if r.ok then
        match r.body with
        | [] => cache
        | u :: _ => objSet cache email u.accountId
      else cache
    | _ => cache

/-- `lookupJiraUsers` over the configured unique assignee emails. -/
def lookupJiraUsers (env : UserEnv) (uniqueEmails : List String)
    (cache : List (String × String)) : List (String × String) :=
  uniqueEmails.foldl (lookupStep env) cache

/-- Assignee attachment in `createJiraTicket` (lines 367-379): with a
configured assignee email, use the cached accountId when truthy, otherwise
leave the ticket unassigned. -/
def assigneeAccountId (cache : List (String × String))
    (projectAssignee : Option String) : Option String :=
  match projectAssignee with
  | some email => truthyLookup cache email
  | none => none

/-! ### Ticket Closure Engine: `closeJiraTicket` (lines 639-847) -/

/-- One entry of `transitionsData.transitions`. -/
structure Transition where
  id : String
  name : String
  deriving Repr, DecidableEq

/-- The constant preferred-transition name list of line 669: wont do, Done,
Closed, Resolved, Verified, in this order. -/
def preferredTransitions : List String :=
  ["wont do", "Done", "Closed", "Resolved", "Verified"]

/-- The selection loop (lines 673-680): walk the preferred names in order and
take `transitions.find(t => t.name === preferredName)` for the first name
that has a match. -/
def selectTransitionFrom : List String → List Transition → Option Transition
  | [], _ => none
  | n :: ns, ts =>
    match ts.find? (fun t => decide (t.name = n)) with
    | some t => some t
    | none => selectTransitionFrom ns ts

/-- Transition selection over the preferred-name list of the source. -/
def selectTransition (ts : List Transition) : Option Transition :=
  selectTransitionFrom preferredTransitions ts

/-- The network calls `closeJiraTicket` can make, in order. -/
inductive CloseCall where
  | getTransitions
  | postTransitionWithComment
  | postTransitionOnly
  | postComment
  deriving Repr, DecidableEq

/-- The Jira side of the network as seen by `closeJiraTicket`: the
transition-fetch GET, the combined transition+comment POST, the
transition-only POST, and the separate comment POST. -/
structure CloseEnv where
  transitionsGetAttempts : Nat → FetchOutcome (List Transition)
  postWithCommentAttempts : Nat → FetchOutcome Unit
  postTransitionOnlyAttempts : Nat → FetchOutcome Unit
  postCommentAttempts : Nat → FetchOutcome Unit

/-- `closeJiraTicket` (lines 639-847), returning its boolean result together
with the trace of calls issued.  Every thrown error is caught by the outer
`catch` (line 838) and yields `false`; a non-ok transition fetch throws
(line 663); no suitable transition returns `false` before any POST
(lines 682-689); the transition+comment POST is retried transition-only when
it returns non-ok (line 750), after which the comment is added best-effort
(lines 775-814, its outcome never changes the result). -/
def closeJiraTicket (env : CloseEnv) : Bool × List CloseCall :=
  match fetchWithRetry env.transitionsGetAttempts 3 with
  | .error _ => (false, [.getTransitions])
  | .ok none => (false, [.getTransitions])
  | .ok (some r) =>
    if r.ok then
      match selectTransition r.body with
      | none => (false, [.getTransitions])
      | some _ =>
        match fetchWithRetry env.postWithCommentAttempts 3 with
        | .error _ => (false, [.getTransitions, .postTransitionWithComment])
        | .ok none => (false, [.getTransitions, .postTransitionWithComment])
        | .ok (some closeResponse) =>
          if closeResponse.ok then
            (true, [.getTransitions, .postTransitionWithComment])
          else
            match fetchWithRetry env.postTransitionOnlyAttempts 3 with
            | .error _ =>
              (false, [.getTransitions, .postTransitionWithComment, .postTransitionOnly])
            | .ok none =>
              (false, [.getTransitions, .postTransitionWithComment, .postTransitionOnly])
            | .ok (some retryResponse) =>
              if retryResponse.ok then
                (true, [.getTransitions, .postTransitionWithComment,
                        .postTransitionOnly, .postComment])
              else
                (false, [.getTransitions, .postTransitionWithComment, .postTransitionOnly])
    else (false, [.getTransitions])

/-! ### Closure orchestration: `closeResolvedJiraTickets`
(lines 852-1154), after pagination -/

/-- The returned counts.  `ticketsWithErrors` is optional because the early
return for the no-keys run (lines 1014-1018) omits that property. -/
structure CloseRunResult where
  ticketsChecked : Nat
  ticketsClosed : Nat
  ticketsNotResolved : Nat
  ticketsWithErrors : Option Nat
  deriving Repr, DecidableEq

/-- The key-extraction pass over all fetched tickets (lines 978-1008):
collect the trimmed, non-empty reference keys in ticket order. -/
def extractSonarKeysFromTickets (tickets : List JiraSearchTicket) : List String :=
  tickets.foldl
    (fun acc t =>
      match extractSonarKeyTrimmed t with
      | some k => acc ++ [k]
      | none => acc)
    []

/-- Counters of the per-ticket processing loop. -/
structure CloseCounts where
  closedCount : Nat
  errorCount : Nat
  notResolvedCount : Nat
  deriving Repr, DecidableEq

/-- Processing of one ticket (lines 1038-1107): malformed or empty reference
fields count as errors; a key mapped to `true` is dispatched to
`closeJiraTicket` (counted closed or error by its result); `false` counts
not-resolved; a key missing from the map falls into the unknown-status error
branch.  `closeFn` abstracts `closeJiraTicket(ticket.key, sonarKey, ...)`. -/
def processTicket (rmap : StatusMap) (closeFn : String → String → Bool)
    (c : CloseCounts) (t : JiraSearchTicket) : CloseCounts :=
  match t.customfield_11972 with
  | none => ⟨c.closedCount, c.errorCount + 1, c.notResolvedCount⟩
  | some cf =>
    match cf.content with
    | [] => ⟨c.closedCount, c.errorCount + 1, c.notResolvedCount⟩
    | p :: _ =>
      match p.content with
      | [] => ⟨c.closedCount, c.errorCount + 1, c.notResolvedCount⟩
      | r :: _ =>
        if jsTrim r.text = "" then ⟨c.closedCount, c.errorCount + 1, c.notResolvedCount⟩
        else
          match objGet rmap (jsTrim r.text) with
          | some true =>
            if closeFn t.key (jsTrim r.text) then
              ⟨c.closedCount + 1, c.errorCount, c.notResolvedCount⟩
            else ⟨c.closedCount, c.errorCount + 1, c.notResolvedCount⟩
          | some false => ⟨c.closedCount, c.errorCount, c.notResolvedCount + 1⟩
          | none => ⟨c.closedCount, c.errorCount + 1, c.notResolvedCount⟩

/-- `closeResolvedJiraTickets` after pagination (lines 969-1143): extract the
keys, return early (without `ticketsWithErrors`) when none were found,
otherwise run the reconciliation engine once over all keys and process every
ticket against the resulting map.  The concurrency-bounded batches of 5 only
group awaited calls; each ticket contributes its counter increments
independently, so the counts equal this sequential fold. -/
def closeResolvedJiraTicketsCore (env : SonarEnv) (crash : Option String)
    (tickets : List JiraSearchTicket) (closeFn : String → String → Bool) :
    CloseRunResult :=
  let allSonarKeys := extractSonarKeysFromTickets tickets
  if allSonarKeys.isEmpty then
    ⟨tickets.length, 0, 0, none⟩
  else
    let rmap := checkMultipleIssuesResolved env crash allSonarKeys
    let c := tickets.foldl (processTicket rmap closeFn) ⟨0, 0, 0⟩
    ⟨tickets.length, c.closedCount, c.notResolvedCount, some c.errorCount⟩

/-! ### Concrete instances used to evaluate the model on the scenarios of the spec -/

/-- SonarQube responses for the reconciliation scenario of the spec: the issues
search returns only `k1`, the hotspot-show query reports every key absent. -/
def reconEnvIssueK1 : SonarEnv :=
  ⟨fun _ _ => .resp ⟨true, 200, [⟨"k1"⟩]⟩,
   fun _ _ => .resp ⟨true, 200, ⟨[], none⟩⟩⟩

/-- A SonarQube network where every attempt of every call throws. -/
def reconEnvDown : SonarEnv :=
  ⟨fun _ _ => .netErr "ECONNREFUSED",
   fun _ _ => .netErr "ECONNREFUSED"⟩

/-- Jira closure network whose only available transition is named `Other`. -/
def closeEnvOther : CloseEnv :=
  ⟨fun _ => .resp ⟨true, 200, [⟨"2", "Other"⟩]⟩,
   fun _ => .resp ⟨true, 200, ()⟩,
   fun _ => .resp ⟨true, 200, ()⟩,
   fun _ => .resp ⟨true, 200, ()⟩⟩

/-- Jira closure network where the transition fetch succeeds with a `Done`
transition but every attempt of the combined transition+comment POST returns
HTTP 500, while the transition-only POST would succeed if it were reached. -/
def closeEnvCombinedFails : CloseEnv :=
  ⟨fun _ => .resp ⟨true, 200, [⟨"1", "Done"⟩]⟩,
   fun _ => .resp ⟨false, 500, ()⟩,
   fun _ => .resp ⟨true, 200, ()⟩,
   fun _ => .resp ⟨true, 200, ()⟩⟩

/-- 51 finding keys, so the Existence Index build needs two batches of 50. -/
def indexKeys51 : List String := (List.range 51).map (fun i => "K" ++ toString i)

/-- The open ticket holding key `K50`, which only the second batch returns. -/
def ticketK50 : JiraSearchTicket := ⟨"LV-9", some ⟨[⟨[⟨"K50"⟩]⟩]⟩⟩

/-- Jira network where the full-size first batch search fails on every
attempt and the one-element second batch search would return `ticketK50`. -/
def jiraEnvFirstBatchFails : JiraEnv :=
  ⟨fun b _ =>
     if b.length = 50 then .netErr "network down"
     else .resp ⟨true, 200, [ticketK50]⟩,
   fun _ _ => .netErr "unused"⟩

/-- The open ticket holding key `kE` for the idempotence scenario. -/
def ticketKE : JiraSearchTicket := ⟨"LV-1", some ⟨[⟨[⟨"kE"⟩]⟩]⟩⟩

/-- Jira network for the idempotence scenario: the existence search returns
`ticketKE` and every create call succeeds with key `LV-NEW`. -/
def jiraEnvExisting : JiraEnv :=
  ⟨fun _ _ => .resp ⟨true, 200, [ticketKE]⟩,
   fun _ _ => .resp ⟨true, 200, ⟨"LV-NEW"⟩⟩⟩

/-- A finding whose identifier `kE` already has the open ticket `LV-1`. -/
def itemExisting : SonarItem := ⟨"kE", "proj", "proj:src/a.js", "msg", "MAJOR", ""⟩

/-- A fresh finding with identifier `kN`. -/
def itemFresh : SonarItem := ⟨"kN", "proj", "proj:src/b.js", "msg", "MAJOR", ""⟩

/-- A hotspot finding with LOW vulnerability probability. -/
def itemLowHotspot : SonarItem := ⟨"kH", "proj", "proj:src/c.js", "msg", "", "LOW"⟩

/-- Jira user search returning two matches for the looked-up email. -/
def userEnvTwoMatches : UserEnv :=
  ⟨fun _ _ => .resp ⟨true, 200, [⟨"acc-1"⟩, ⟨"acc-2"⟩]⟩⟩

/-- Jira user search returning zero matches for the looked-up email. -/
def userEnvNoMatch : UserEnv :=
  ⟨fun _ _ => .resp ⟨true, 200, []⟩⟩

/-- A fetched ticket with no reference-field content at all. -/
def ticketNoRef : JiraSearchTicket := ⟨"LV-2", none⟩

/-- A fetched ticket whose reference field holds `" k1 "` (trims to `k1`). -/
def ticketRefK1 : JiraSearchTicket := ⟨"LV-3", some ⟨[⟨[⟨" k1 "⟩]⟩]⟩⟩

/-! ## Lemmas about the map and fetch primitives -/

theorem objGet_objSet {β : Type} (m : List (String × β)) (k k' : String) (v : β) :
    objGet (objSet m k v) k' = if k = k' then some v else objGet m k' := by
  induction m with
  | nil => simp [objSet, objGet]
  | cons a rest ih =>
    obtain ⟨a1, w⟩ := a
    by_cases h : a1 = k
    · subst h
      by_cases h2 : a1 = k' <;> simp [objSet, objGet, h2]
    · by_cases h2 : a1 = k'
      · subst h2
        have : k ≠ a1 := fun hk => h hk.symm
        simp [objSet, objGet, h, this]
      · simp [objSet, objGet, h, h2, ih]

theorem objGet_foldl_objSet {β : Type} (v : β) (l : List String)
    (m : List (String × β)) (k : String) :
    objGet (l.foldl (fun m x => objSet m x v) m) k
      = if k ∈ l then some v else objGet m k := by
  induction l generalizing m with
  | nil => simp
  | cons a l ih =>
    simp only [List.foldl_cons]
    rw [ih]
    by_cases hl : k ∈ l
    · simp [hl]
    · by_cases hak : a = k
      · subst hak
        simp [hl, objGet_objSet]
      · have hka : ¬k = a := fun h => hak h.symm
        have : ¬k ∈ a :: l := by simp [hl, hka]
        simp [hl, this, objGet_objSet, hak]

theorem fetchGo_ok_true {α : Type} (attempts : Nat → FetchOutcome α) (r : HttpResponse α) :
    ∀ (fuel i : Nat), fetchGo attempts i fuel = .ok (some r) → r.ok = true := by
  intro fuel
  induction fuel with
  | zero => intro i h; simp [fetchGo] at h
  | succ fuel ih =>
    intro i h
    simp only [fetchGo] at h
    cases hA : attempts i with
    | resp rr =>
      rw [hA] at h
      by_cases hok : rr.ok
      · simp only [hok, if_true] at h
        cases h
        exact hok
      · by_cases hf : fuel = 0
        · simp [hok, hf] at h
        · simp only [hok, hf, if_false, Bool.false_eq_true, if_neg] at h
          exact ih _ h
    | netErr msg =>
      rw [hA] at h
      by_cases hf : fuel = 0
      · simp [hf] at h
      · simp only [hf, if_neg, if_false] at h
        exact ih _ h

theorem fetchGo_ne_ok_none {α : Type} (attempts : Nat → FetchOutcome α) :
    ∀ (fuel i : Nat), fuel ≠ 0 → fetchGo attempts i fuel ≠ .ok none := by
  intro fuel
  induction fuel with
  | zero => intro i h; exact absurd rfl h
  | succ fuel ih =>
    intro i _ h
    simp only [fetchGo] at h
    cases hA : attempts i with
    | resp rr =>
      rw [hA] at h
      by_cases hok : rr.ok
      · simp [hok] at h
      · by_cases hf : fuel = 0
        · simp [hok, hf] at h
        · simp only [hok, hf, Bool.false_eq_true, if_false, if_neg] at h
          exact ih _ hf h
    | netErr msg =>
      rw [hA] at h
      by_cases hf : fuel = 0
      · simp [hf] at h
      · simp only [hf, if_neg, if_false] at h
        exact ih _ hf h

/-- `fetchWithRetry` with the default three attempts never resolves to a
non-ok response: it either returns an ok response or throws. -/
theorem fetchWithRetry_ok_true {α : Type} (attempts : Nat → FetchOutcome α)
    (r : HttpResponse α) (h : fetchWithRetry attempts 3 = .ok (some r)) :
    r.ok = true :=
  fetchGo_ok_true attempts r 3 0 h

/-- `fetchWithRetry` with the default three attempts never returns
`undefined`. -/
theorem fetchWithRetry_ne_ok_none {α : Type} (attempts : Nat → FetchOutcome α) :
    fetchWithRetry attempts 3 ≠ .ok none :=
  fetchGo_ne_ok_none attempts 3 0 (by decide)

theorem chunksOfGo_flatten {α : Type} (n : Nat) (hn : 0 < n) :
    ∀ (fuel : Nat) (l : List α), l.length ≤ fuel → (chunksOfGo n fuel l).flatten = l := by
  intro fuel
  induction fuel with
  | zero =>
    intro l hl
    have : l = [] := List.eq_nil_of_length_eq_zero (Nat.le_zero.mp hl)
    simp [this, chunksOfGo]
  | succ fuel ih =>
    intro l hl
    cases l with
    | nil => simp [chunksOfGo]
    | cons a t =>
      simp only [chunksOfGo, List.flatten_cons]
      rw [ih]
      · exact List.take_append_drop n (a :: t)
      · have hdrop : ((a :: t).drop n).length = (a :: t).length - n := List.length_drop n _
        have hlen : (a :: t).length ≤ fuel + 1 := hl
        omega

/-- The 50-element batch slices concatenate back to the original key list. -/
theorem chunksOf_flatten {α : Type} (n : Nat) (hn : 0 < n) (l : List α) :
    (chunksOf n l).flatten = l :=
  chunksOfGo_flatten n hn l.length l le_rfl

/-! ## Lemmas about the Resolution Reconciliation Engine -/

theorem hotspotStep_eq (env : SonarEnv) (m : StatusMap) (k : String) :
    hotspotStep env m k
      = if hotspotFindsActive env k then objSet m k false else m := by
  unfold hotspotStep hotspotFindsActive
  cases h : fetchWithRetry (env.hotspotShowAttempts k) 3 with
  | error e => simp
  | ok o =>
    cases o with
    | none => simp
    | some r =>
      by_cases hok : r.ok
      · by_cases herr : r.body.errors = []
        · by_cases hkey : truthyString r.body.key
          · simp [hok, herr, hkey, List.isEmpty_iff]
          · simp [hok, herr, hkey, List.isEmpty_iff]
        · simp [hok, herr, List.isEmpty_iff]
      · simp [hok]

theorem objGet_foldl_hotspotStep (env : SonarEnv) (l : List String)
    (m : StatusMap) (k : String) :
    objGet (l.foldl (hotspotStep env) m) k
      = if k ∈ l ∧ hotspotFindsActive env k = true then some false
        else objGet m k := by
  induction l generalizing m with
  | nil => simp
  | cons a l ih =>
    simp only [List.foldl_cons]
    rw [ih]
    by_cases h1 : k ∈ l ∧ hotspotFindsActive env k = true
    · have : k ∈ a :: l ∧ hotspotFindsActive env k = true :=
        ⟨List.mem_cons_of_mem a h1.1, h1.2⟩
      simp [h1, this]
    · rw [hotspotStep_eq]
      by_cases hak : a = k
      · subst hak
        by_cases hhot : hotspotFindsActive env a = true
        · simp [h1, hhot, objGet_objSet]
        · simp [h1, hhot]
      · have hka : ¬k = a := fun h => hak h.symm
        have h2 : ¬((k = a ∨ k ∈ l) ∧ hotspotFindsActive env k = true) := by
          rintro ⟨h | h, hc⟩
          · exact hka h
          · exact h1 ⟨h, hc⟩
        by_cases hhot : hotspotFindsActive env a = true
        · simp only [h1, if_neg, hhot, if_pos, objGet_objSet, hak, if_false,
            List.mem_cons]
          rw [if_neg h2]
        · simp only [h1, if_neg, hhot, Bool.not_eq_true, if_false, List.mem_cons]
          rw [if_neg h2]

theorem processBatch_eq (env : SonarEnv) (m : StatusMap) (b : List String) :
    processBatch env m b
      = (let m1 := (issuesPhaseFinds env b).foldl (fun m x => objSet m x false) m
         (b.filter (fun k => decide (objGet m1 k = some true))).foldl
           (hotspotStep env) m1) := by
  unfold processBatch issuesPhaseFinds
  cases h : fetchWithRetry (env.issuesSearchAttempts b) 3 with
  | error e => simp
  | ok o =>
    cases o with
    | none => simp
    | some r => by_cases hok : r.ok <;> simp [hok]

theorem processBatch_objGet_of_not_mem (env : SonarEnv) (m : StatusMap)
    (b : List String) (k : String)
    (hsound : ∀ x ∈ issuesPhaseFinds env b, x ∈ b) (hk : k ∉ b) :
    objGet (processBatch env m b) k = objGet m k := by
  rw [processBatch_eq]
  simp only
  rw [objGet_foldl_hotspotStep, objGet_foldl_objSet]
  have h1 : k ∉ issuesPhaseFinds env b := fun hx => hk (hsound _ hx)
  have h2 : ∀ p, k ∉ b.filter p := fun p hx => hk (List.mem_of_mem_filter hx)
  simp [h1, h2 _]

theorem processBatch_objGet_of_mem (env : SonarEnv) (m : StatusMap)
    (b : List String) (k : String)
    (htrue : ∀ x ∈ b, objGet m x = some true) (hk : k ∈ b) :
    objGet (processBatch env m b) k
      = some (!(decide (k ∈ issuesPhaseFinds env b) || hotspotFindsActive env k)) := by
  rw [processBatch_eq]
  simp only
  rw [objGet_foldl_hotspotStep]
  have hm1 : objGet ((issuesPhaseFinds env b).foldl (fun m x => objSet m x false) m) k
      = if k ∈ issuesPhaseFinds env b then some false else some true := by
    rw [objGet_foldl_objSet]
    by_cases h : k ∈ issuesPhaseFinds env b <;> simp [h, htrue k hk]
  by_cases hfin : k ∈ issuesPhaseFinds env b
  · have hnotf : k ∉ b.filter (fun k =>
        decide (objGet ((issuesPhaseFinds env b).foldl (fun m x => objSet m x false) m) k
          = some true)) := by
      intro hc
      have := (List.mem_filter.mp hc).2
      rw [hm1] at this
      simp [hfin] at this
    have hcond : ¬(k ∈ b.filter (fun k =>
        decide (objGet ((issuesPhaseFinds env b).foldl (fun m x => objSet m x false) m) k
          = some true)) ∧ hotspotFindsActive env k = true) := fun hc => hnotf hc.1
    rw [if_neg hcond, hm1, if_pos hfin]
    simp [hfin]
  · have hmem : k ∈ b.filter (fun k =>
        decide (objGet ((issuesPhaseFinds env b).foldl (fun m x => objSet m x false) m) k
          = some true)) := by
      apply List.mem_filter.mpr
      refine ⟨hk, ?_⟩
      rw [hm1]
      simp [hfin]
    by_cases hhot : hotspotFindsActive env k = true
    · rw [if_pos ⟨hmem, hhot⟩]
      simp [hfin, hhot]
    · have hcond : ¬(k ∈ b.filter (fun k =>
          decide (objGet ((issuesPhaseFinds env b).foldl (fun m x => objSet m x false) m) k
            = some true)) ∧ hotspotFindsActive env k = true) := fun hc => hhot hc.2
      rw [if_neg hcond, hm1, if_neg hfin]
      simp only [Bool.not_eq_true] at hhot
      simp [hfin, hhot]

theorem batchLoop_objGet_frame (env : SonarEnv) (cs : List (List String))
    (m : StatusMap) (k : String)
    (hsound : ∀ c ∈ cs, ∀ x ∈ issuesPhaseFinds env c, x ∈ c)
    (hk : ∀ c ∈ cs, k ∉ c) :
    objGet (batchLoop env cs m) k = objGet m k := by
  induction cs generalizing m with
  | nil => rfl
  | cons b rest ih =>
    simp only [batchLoop]
    rw [ih (processBatch env m b)
      (fun c hc => hsound c (List.mem_cons_of_mem b hc))
      (fun c hc => hk c (List.mem_cons_of_mem b hc))]
    exact processBatch_objGet_of_not_mem env m b k
      (hsound b (List.mem_cons_self b rest)) (hk b (List.mem_cons_self b rest))

theorem batchLoop_objGet_char (env : SonarEnv) :
    ∀ (cs : List (List String)) (m : StatusMap),
      (∀ c ∈ cs, ∀ x ∈ issuesPhaseFinds env c, x ∈ c) →
      cs.flatten.Nodup →
      (∀ x ∈ cs.flatten, objGet m x = some true) →
      ∀ b ∈ cs, ∀ k ∈ b,
        objGet (batchLoop env cs m) k
          = some (!(decide (k ∈ issuesPhaseFinds env b) || hotspotFindsActive env k)) := by
  intro cs
  induction cs with
  | nil =>
    intro m _ _ _ b hb
    cases hb
  | cons c rest ih =>
    intro m hsound hnd htrue b hb k hk
    have hflat : (c :: rest).flatten = c ++ rest.flatten := List.flatten_cons ..
    rw [hflat] at hnd htrue
    have hnd3 := List.nodup_append.mp hnd
    rcases List.mem_cons.mp hb with rfl | hbrest
    · simp only [batchLoop]
      rw [batchLoop_objGet_frame env rest (processBatch env m b) k
        (fun c hc => hsound c (List.mem_cons_of_mem b hc))
        (fun c' hc' hkc' =>
          hnd3.2.2 hk (List.mem_flatten.mpr ⟨c', hc', hkc'⟩))]
      exact processBatch_objGet_of_mem env m b k
        (fun x hx => htrue x (List.mem_append_left _ hx)) hk
    · simp only [batchLoop]
      apply ih (processBatch env m c)
        (fun c' hc' => hsound c' (List.mem_cons_of_mem c hc'))
        hnd3.2.1 ?_ b hbrest k hk
      intro x hx
      rw [processBatch_objGet_of_not_mem env m c x
        (hsound c (List.mem_cons_self c rest))
        (fun hxc => hnd3.2.2 hxc hx)]
      exact htrue x (List.mem_append_right _ hx)

theorem batchLoop_objGet_isSome (env : SonarEnv) (cs : List (List String)) :
    ∀ (m : StatusMap) (k : String), (objGet m k).isSome →
      (objGet (batchLoop env cs m) k).isSome := by
  induction cs with
  | nil => intro m k h; exact h
  | cons b rest ih =>
    intro m k h
    apply ih
    rw [processBatch_eq]
    simp only
    rw [objGet_foldl_hotspotStep]
    by_cases h1 : k ∈ b.filter (fun k =>
        decide (objGet ((issuesPhaseFinds env b).foldl (fun m x => objSet m x false) m) k
          = some true)) ∧ hotspotFindsActive env k = true
    · simp [h1]
    · rw [if_neg h1, objGet_foldl_objSet]
      by_cases h2 : k ∈ issuesPhaseFinds env b
      · simp [h2]
      · simpa [h2] using h

/-! ## Claim theorems -/

/-- C1: every identifier handed to `checkMultipleIssuesResolved` starts in the
default RESOLVED (`true`) state and exactly the identifiers confirmed present
by the source system are flipped to ACTIVE (`false`): the final entry for an
identifier is `false` precisely when the unresolved-issues search of its batch
returned it or its individual hotspot-show query reported it found and not
resolved, and it is `true` when both phases confirmed it absent.  The
hypotheses say the identifier list is duplicate-free and the issues search
answers within the queried batch. -/
theorem checkMultipleIssuesResolved_flips_exactly_confirmed
    (env : SonarEnv) (sonarKeys b : List String) (k : String)
    (hnd : sonarKeys.Nodup)
    (hsound : ∀ c ∈ chunksOf 50 sonarKeys, ∀ x ∈ issuesPhaseFinds env c, x ∈ c)
    (hb : b ∈ chunksOf 50 sonarKeys) (hk : k ∈ b) :
    objGet (checkMultipleIssuesResolved env none sonarKeys) k
      = some (!(decide (k ∈ issuesPhaseFinds env b) || hotspotFindsActive env k)) := by
  simp only [checkMultipleIssuesResolved, checkCore]
  apply batchLoop_objGet_char env (chunksOf 50 sonarKeys) _ hsound ?nd ?tr b hb k hk
  case nd =>
    rw [chunksOf_flatten 50 (by norm_num)]
    exact hnd
  case tr =>
    intro x hx
    rw [chunksOf_flatten 50 (by norm_num)] at hx
    rw [objGet_foldl_objSet]
    simp [hx]

/-- C1 witness: for identifiers `[k1, k2]`, an issues search returning only
`k1` and a hotspot phase confirming `k2` absent, the engine answers
`k1 ↦ false` and `k2 ↦ true`. -/
theorem checkMultipleIssuesResolved_flips_exactly_confirmed_witness :
    (["k1", "k2"] : List String).Nodup ∧
    objGet (checkMultipleIssuesResolved reconEnvIssueK1 none ["k1", "k2"]) "k1"
      = some false ∧
    objGet (checkMultipleIssuesResolved reconEnvIssueK1 none ["k1", "k2"]) "k2"
      = some true := by
  refine ⟨by decide, ?_, ?_⟩
  · have h := checkMultipleIssuesResolved_flips_exactly_confirmed reconEnvIssueK1
      ["k1", "k2"] ["k1", "k2"] "k1" (by decide) (by decide) (by decide) (by decide)
    rw [h]
    decide
  · have h := checkMultipleIssuesResolved_flips_exactly_confirmed reconEnvIssueK1
      ["k1", "k2"] ["k1", "k2"] "k2" (by decide) (by decide) (by decide) (by decide)
    rw [h]
    decide

/-- C2: when the whole batch-check machinery throws, the fallback map marks
every requested identifier ACTIVE (`false`). -/
theorem checkMultipleIssuesResolved_crash_marks_all_active
    (env : SonarEnv) (e : String) (sonarKeys : List String) (k : String)
    (hk : k ∈ sonarKeys) :
    objGet (checkMultipleIssuesResolved env (some e) sonarKeys) k = some false := by
  simp only [checkMultipleIssuesResolved]
  rw [objGet_foldl_objSet]
  simp [hk]

/-- C2 witness: a total failure over `[k1, k2]` marks `k1` ACTIVE. -/
theorem checkMultipleIssuesResolved_crash_marks_all_active_witness :
    ("k1" ∈ (["k1", "k2"] : List String)) ∧
    objGet (checkMultipleIssuesResolved reconEnvDown (some "batch failure")
        ["k1", "k2"]) "k1" = some false :=
  ⟨by decide,
   checkMultipleIssuesResolved_crash_marks_all_active reconEnvDown "batch failure"
     ["k1", "k2"] "k1" (by decide)⟩

/-- C10: the resolution map returned by `checkMultipleIssuesResolved` holds a
boolean entry for every requested identifier, on the normal path and on the
total-failure fallback path alike, so a ticket whose extracted identifier was
submitted to the engine never reaches the unknown-resolution-status branch of
the closure orchestration. -/
theorem resolutionMap_total_on_requested_keys
    (env : SonarEnv) (crash : Option String) (tickets : List JiraSearchTicket)
    (k : String) (hk : k ∈ extractSonarKeysFromTickets tickets) :
    (∃ bv, objGet (checkMultipleIssuesResolved env crash
        (extractSonarKeysFromTickets tickets)) k = some bv) ∧
    ticketDecision (checkMultipleIssuesResolved env crash
        (extractSonarKeysFromTickets tickets)) k ≠ TicketDecision.unknown := by
  have hsome : (objGet (checkMultipleIssuesResolved env crash
      (extractSonarKeysFromTickets tickets)) k).isSome := by
    cases crash with
    | some e =>
      simp only [checkMultipleIssuesResolved]
      rw [objGet_foldl_objSet]
      simp [hk]
    | none =>
      simp only [checkMultipleIssuesResolved, checkCore]
      apply batchLoop_objGet_isSome
      rw [objGet_foldl_objSet]
      simp [hk]
  obtain ⟨bv, hbv⟩ := Option.isSome_iff_exists.mp hsome
  refine ⟨⟨bv, hbv⟩, ?_⟩
  unfold ticketDecision
  rw [hbv]
  cases bv <;> simp

/-- C10 witness: a ticket whose reference field trims to `k1` yields an
identifier whose decision is never the unknown branch. -/
theorem resolutionMap_total_on_requested_keys_witness :
    ("k1" ∈ extractSonarKeysFromTickets [ticketRefK1]) ∧
    ticketDecision (checkMultipleIssuesResolved reconEnvIssueK1 none
        (extractSonarKeysFromTickets [ticketRefK1])) "k1"
      ≠ TicketDecision.unknown :=
  ⟨by decide,
   (resolutionMap_total_on_requested_keys reconEnvIssueK1 none [ticketRefK1] "k1"
     (by decide)).2⟩

/-! ## Lemmas about the Existence Index and Ticket Creation Engine -/

theorem checkIfTicketExists_eq_some (map : List (String × String)) (k tk : String)
    (h : checkIfTicketExists map k = some tk) : objGet map k = some tk := by
  unfold checkIfTicketExists at h
  cases hm : objGet map k with
  | none => rw [hm] at h; cases h
  | some t =>
    rw [hm] at h
    simp only at h
    by_cases ht : t = ""
    · rw [if_pos ht] at h; cases h
    · rw [if_neg ht] at h
      exact h

theorem addTicketToIndex_existing_superset (st : IndexState) (t : JiraSearchTicket)
    (v : String) (h : v ∈ st.existing) : v ∈ (addTicketToIndex st t).existing := by
  unfold addTicketToIndex
  cases extractSonarKeyCreate t with
  | none => exact h
  | some sk =>
    by_cases hm : t.key ∈ st.existing
    · simpa [hm]
    · simp only [hm, if_neg, if_false]
      exact List.mem_append_left _ h

theorem addTicketToIndex_values (st : IndexState) (t : JiraSearchTicket)
    (h : ∀ k v, objGet st.map k = some v → v ∈ st.existing) :
    ∀ k v, objGet (addTicketToIndex st t).map k = some v →
      v ∈ (addTicketToIndex st t).existing := by
  intro k v hv
  unfold addTicketToIndex at hv ⊢
  cases he : extractSonarKeyCreate t with
  | none =>
    rw [he] at hv
    exact h k v hv
  | some sk =>
    rw [he] at hv
    simp only at hv
    rw [objGet_objSet] at hv
    by_cases hsk : sk = k
    · rw [if_pos hsk] at hv
      cases hv
      by_cases hm : t.key ∈ st.existing
      · simp [hm]
      · simp [hm]
    · rw [if_neg hsk] at hv
      have hvin := h k v hv
      by_cases hm : t.key ∈ st.existing
      · simpa [hm]
      · simp only [hm, if_neg, if_false]
        exact List.mem_append_left _ hvin

theorem foldl_addTicketToIndex_values (ts : List JiraSearchTicket) :
    ∀ (st : IndexState), (∀ k v, objGet st.map k = some v → v ∈ st.existing) →
      ∀ k v, objGet (ts.foldl addTicketToIndex st).map k = some v →
        v ∈ (ts.foldl addTicketToIndex st).existing := by
  induction ts with
  | nil => intro st h; exact h
  | cons t ts ih =>
    intro st h
    exact ih (addTicketToIndex st t) (addTicketToIndex_values st t h)

/-- Every ticket key stored as a value of the Existence Index was also pushed
onto the `existingTickets` list. -/
theorem buildIndexLoop_values (env : JiraEnv) (cs : List (List String)) :
    ∀ (st : IndexState), (∀ k v, objGet st.map k = some v → v ∈ st.existing) →
      ∀ k v, objGet (buildIndexLoop env cs st).map k = some v →
        v ∈ (buildIndexLoop env cs st).existing := by
  induction cs with
  | nil => intro st h; exact h
  | cons b rest ih =>
    intro st h
    simp only [buildIndexLoop]
    cases hf : fetchWithRetry (env.searchAttempts b) 3 with
    | error e => exact h
    | ok o =>
      cases o with
      | none => exact h
      | some r =>
        by_cases hok : r.ok
        · simp only [hok, if_true]
          exact ih _ (foldl_addTicketToIndex_values r.body st h)
        · simp only [hok, Bool.false_eq_true, if_false]
          exact h

theorem createLoop_skips_existing (env : JiraEnv) (indexMap : List (String × String))
    (k0 : String) (hmapped : (checkIfTicketExists indexMap k0).isSome) :
    ∀ (items : List SonarItem) (st : CreateState), k0 ∉ st.submitted →
      k0 ∉ (items.foldl (createJiraTicketStep env indexMap) st).submitted := by
  intro items
  induction items with
  | nil => intro st h; exact h
  | cons it rest ih =>
    intro st h
    simp only [List.foldl_cons]
    apply ih
    unfold createJiraTicketStep
    cases hc : checkIfTicketExists indexMap it.key with
    | some t => exact h
    | none =>
      have hne : ¬k0 = it.key := by
        intro he
        rw [← he, ] at hc
        rw [hc] at hmapped
        simp at hmapped
      have hmem : k0 ∉ st.submitted ++ [it.key] := by
        intro hin
        rcases List.mem_append.mp hin with hin | hin
        · exact h hin
        · exact hne (List.mem_singleton.mp hin)
      cases hf : fetchWithRetry (env.createAttempts it.key) 3 with
      | error e => exact hmem
      | ok o =>
        cases o with
        | none => exact hmem
        | some r => by_cases hok : r.ok <;> simp [hok, hmem]

theorem createLoop_no_requests (env : JiraEnv) (indexMap : List (String × String)) :
    ∀ (items : List SonarItem),
      (∀ it ∈ items, (checkIfTicketExists indexMap it.key).isSome) →
      ∀ st, items.foldl (createJiraTicketStep env indexMap) st = st := by
  intro items
  induction items with
  | nil => intro _ st; rfl
  | cons it rest ih =>
    intro h st
    obtain ⟨t, ht⟩ := Option.isSome_iff_exists.mp (h it (List.mem_cons_self ..))
    simp only [List.foldl_cons]
    have hstep : createJiraTicketStep env indexMap st it = st := by
      unfold createJiraTicketStep
      rw [ht]
    rw [hstep]
    exact ih (fun g hg => h g (List.mem_cons_of_mem _ hg)) st

/-- C3: ticket creation is idempotent with respect to the Existence Index:
a finding whose identifier is mapped to an open ticket in the index has no
create-issue request submitted for it and the key of that ticket is reported in
the `existing` list; when the identifier of every finding is already mapped (the
index reflecting a previous run), the run submits no request and creates no
ticket. -/
theorem createJiraTickets_idempotent (env : JiraEnv) (issues hotspots : List SonarItem) :
    (∀ f ∈ issues ++ hotspots, ∀ tk,
      checkIfTicketExists (buildIndexLoop env
          (chunksOf 50 (issues.map SonarItem.key ++ hotspots.map SonarItem.key))
          ⟨[], []⟩).map f.key = some tk →
      f.key ∉ (createJiraTicketsRun env issues hotspots).2 ∧
      tk ∈ (createJiraTicketsRun env issues hotspots).1.existing) ∧
    ((∀ f ∈ issues ++ hotspots,
        (checkIfTicketExists (buildIndexLoop env
            (chunksOf 50 (issues.map SonarItem.key ++ hotspots.map SonarItem.key))
            ⟨[], []⟩).map f.key).isSome) →
      (createJiraTicketsRun env issues hotspots).1.created = [] ∧
      (createJiraTicketsRun env issues hotspots).2 = []) := by
  constructor
  · intro f _ tk htk
    constructor
    · unfold createJiraTicketsRun
      simp only
      apply createLoop_skips_existing env _ f.key (by rw [htk]; rfl)
      simp
    · unfold createJiraTicketsRun
      simp only
      exact buildIndexLoop_values env _ ⟨[], []⟩
        (by intro k v hkv; simp [objGet] at hkv) f.key tk
        (checkIfTicketExists_eq_some _ _ _ htk)
  · intro hall
    unfold createJiraTicketsRun
    simp only
    rw [createLoop_no_requests env _ _ hall ⟨[], []⟩]
    exact ⟨rfl, rfl⟩

/-- C3 witness: with `kE` already tracked by open ticket `LV-1`, a run over
`[kE, kN]` submits nothing for `kE` and reports `LV-1` as existing, and a
second run over `[kE]` alone creates and submits nothing. -/
theorem createJiraTickets_idempotent_witness :
    (itemExisting ∈ [itemExisting, itemFresh] ++ ([] : List SonarItem)) ∧
    itemExisting.key ∉ (createJiraTicketsRun jiraEnvExisting [itemExisting, itemFresh] []).2 ∧
    "LV-1" ∈ (createJiraTicketsRun jiraEnvExisting [itemExisting, itemFresh] []).1.existing ∧
    (createJiraTicketsRun jiraEnvExisting [itemExisting] []).1.created = [] ∧
    (createJiraTicketsRun jiraEnvExisting [itemExisting] []).2 = [] :=
  have h1 := (createJiraTickets_idempotent jiraEnvExisting [itemExisting, itemFresh] []).1
    itemExisting (by decide) "LV-1" (by decide)
  have h2 := (createJiraTickets_idempotent jiraEnvExisting [itemExisting] []).2 (by decide)
  ⟨by decide, h1.1, h1.2, h2.1, h2.2⟩

/-- C4: the ticket priority of an issue is `Highest` exactly when its severity is
BLOCKER or CRITICAL and `High` for every other severity; the priority of a hotspot
is `Highest` exactly when its vulnerability probability is HIGH or MEDIUM, and
LOW probability yields `High`. -/
theorem determinePriority_spec (item : SonarItem) :
    (determinePriority "issue" item = "Highest"
      ↔ item.severity = "BLOCKER" ∨ item.severity = "CRITICAL") ∧
    (determinePriority "issue" item = "High"
      ↔ ¬(item.severity = "BLOCKER" ∨ item.severity = "CRITICAL")) ∧
    (determinePriority "hotspot" item = "Highest"
      ↔ item.vulnerabilityProbability = "HIGH"
          ∨ item.vulnerabilityProbability = "MEDIUM") ∧
    (item.vulnerabilityProbability = "LOW" → determinePriority "hotspot" item = "High") := by
  have hne : ("High" : String) ≠ "Highest" := by decide
  have hne2 : ("Highest" : String) ≠ "High" := by decide
  have hni : ("hotspot" : String) ≠ "issue" := by decide
  refine ⟨?_, ?_, ?_, ?_⟩
  · by_cases h : item.severity = "BLOCKER" ∨ item.severity = "CRITICAL" <;>
      simp [determinePriority, h, hne]
  · by_cases h : item.severity = "BLOCKER" ∨ item.severity = "CRITICAL" <;>
      simp [determinePriority, h, hne2]
  · by_cases h : item.vulnerabilityProbability = "HIGH"
        ∨ item.vulnerabilityProbability = "MEDIUM" <;>
      simp [determinePriority, h, hne, hni]
  · intro h
    have hnot : ¬(item.vulnerabilityProbability = "HIGH"
        ∨ item.vulnerabilityProbability = "MEDIUM") := by
      rw [h]
      decide
    simp [determinePriority, hnot, hni]

/-- C4 witness: a LOW-probability hotspot gets priority `High`. -/
theorem determinePriority_spec_witness :
    itemLowHotspot.vulnerabilityProbability = "LOW" ∧
    determinePriority "hotspot" itemLowHotspot = "High" :=
  ⟨rfl, (determinePriority_spec itemLowHotspot).2.2.2 rfl⟩

/-! ## Lemmas about transition selection -/

theorem selectTransitionFrom_eq_some_iff (ts : List Transition) (t : Transition) :
    ∀ names : List String,
      selectTransitionFrom names ts = some t ↔
        ∃ pre n post, names = pre ++ n :: post ∧
          (∀ n2 ∈ pre, ts.find? (fun tr => decide (tr.name = n2)) = none) ∧
          ts.find? (fun tr => decide (tr.name = n)) = some t := by
  intro names
  induction names with
  | nil =>
    simp only [selectTransitionFrom]
    constructor
    · intro h
      cases h
    · rintro ⟨pre, n, post, heq, -, -⟩
      exact absurd heq (by simp)
  | cons n0 rest ih =>
    simp only [selectTransitionFrom]
    cases hfind : ts.find? (fun tr => decide (tr.name = n0)) with
    | some t0 =>
      constructor
      · intro h
        cases h
        exact ⟨[], n0, rest, rfl, by simp, hfind⟩
      · rintro ⟨pre, n, post, heq, hpre, hfindn⟩
        cases pre with
        | nil =>
          simp only [List.nil_append] at heq
          injection heq with h1 h2
          subst h1
          rw [hfind] at hfindn
          exact hfindn
        | cons p0 pre2 =>
          simp only [List.cons_append] at heq
          injection heq with h1 h2
          subst h1
          have hnone := hpre n0 (List.mem_cons_self ..)
          rw [hnone] at hfind
          cases hfind
    | none =>
      rw [ih]
      constructor
      · rintro ⟨pre, n, post, rfl, hpre, hfindn⟩
        refine ⟨n0 :: pre, n, post, rfl, ?_, hfindn⟩
        intro n2 hn2
        rcases List.mem_cons.mp hn2 with rfl | h2
        · exact hfind
        · exact hpre _ h2
      · rintro ⟨pre, n, post, heq, hpre, hfindn⟩
        cases pre with
        | nil =>
          simp only [List.nil_append] at heq
          injection heq with h1 h2
          subst h1
          rw [hfind] at hfindn
          cases hfindn
        | cons p0 pre2 =>
          simp only [List.cons_append] at heq
          injection heq with h1 h2
          subst h2
          exact ⟨pre2, n, post, rfl,
            fun n2 hmem => hpre n2 (List.mem_cons_of_mem _ hmem), hfindn⟩

theorem selectTransitionFrom_eq_none_of (names : List String) (ts : List Transition)
    (h : ∀ tr ∈ ts, tr.name ∉ names) :
    selectTransitionFrom names ts = none := by
  induction names with
  | nil => rfl
  | cons n0 rest ih =>
    simp only [selectTransitionFrom]
    have hf : ts.find? (fun tr => decide (tr.name = n0)) = none := by
      rw [List.find?_eq_none]
      intro tr htr
      simp only [decide_eq_true_eq]
      intro he
      exact h tr htr (he ▸ List.mem_cons_self ..)
    rw [hf]
    exact ih (fun tr htr hn => h tr htr (List.mem_cons_of_mem _ hn))

/-- C5: `closeJiraTicket` selects the transition whose name is the first
match, in priority order, over the list `wont do, Done, Closed, Resolved,
Verified`; when no available transition matches any of these names, it
returns `false` having issued only the transition-fetch call, never a
transition-apply POST. -/
theorem closeJiraTicket_transition_selection :
    (∀ (ts : List Transition) (t : Transition),
      selectTransition ts = some t ↔
        ∃ pre n post, preferredTransitions = pre ++ n :: post ∧
          (∀ n2 ∈ pre, ts.find? (fun tr => decide (tr.name = n2)) = none) ∧
          ts.find? (fun tr => decide (tr.name = n)) = some t) ∧
    (∀ (env : CloseEnv) (r : HttpResponse (List Transition)),
      fetchWithRetry env.transitionsGetAttempts 3 = .ok (some r) →
      (∀ tr ∈ r.body, tr.name ∉ preferredTransitions) →
      closeJiraTicket env = (false, [CloseCall.getTransitions])) := by
  constructor
  · intro ts t
    exact selectTransitionFrom_eq_some_iff ts t preferredTransitions
  · intro env r hr hnames
    have hok : r.ok = true := fetchWithRetry_ok_true _ r hr
    have hsel : selectTransition r.body = none :=
      selectTransitionFrom_eq_none_of preferredTransitions r.body hnames
    unfold closeJiraTicket
    rw [hr]
    simp [hok, selectTransition] at hsel ⊢
    rw [hsel]

/-- C5 witness: a ticket whose only available transition is `Other` returns
`false` with no transition-apply call. -/
theorem closeJiraTicket_transition_selection_witness :
    (fetchWithRetry closeEnvOther.transitionsGetAttempts 3
      = .ok (some ⟨true, 200, [⟨"2", "Other"⟩]⟩)) ∧
    closeJiraTicket closeEnvOther = (false, [CloseCall.getTransitions]) :=
  ⟨rfl, closeJiraTicket_transition_selection.2 closeEnvOther
    ⟨true, 200, [⟨"2", "Other"⟩]⟩ rfl (by decide)⟩

/-- C6 counterexample: when every attempt of the combined transition+comment
POST returns HTTP 500, `fetchWithRetry` throws, `closeJiraTicket` returns
`false`, and no transition-only request is ever issued — contradicting the
claim that a failing combined call is retried transition-only. -/
theorem closeJiraTicket_fallback_counterexample :
    fetchWithRetry closeEnvCombinedFails.postWithCommentAttempts 3 = .error "HTTP 500" ∧
    closeJiraTicket closeEnvCombinedFails
      = (false, [CloseCall.getTransitions, CloseCall.postTransitionWithComment]) ∧
    CloseCall.postTransitionOnly ∉ (closeJiraTicket closeEnvCombinedFails).2 :=
  ⟨rfl, by decide, by decide⟩

/-- C6 amended: the transition-only fallback branch is unreachable — in every
environment the call trace of `closeJiraTicket` contains no transition-only
request, because `fetchWithRetry` either returns an ok response or throws; in
particular, when the combined transition+comment call fails after its final
attempt, `closeJiraTicket` returns `false` having issued only the
transition-fetch and the combined POST. -/
theorem closeJiraTicket_fallback_unreachable :
    (∀ env : CloseEnv, CloseCall.postTransitionOnly ∉ (closeJiraTicket env).2) ∧
    (∀ (env : CloseEnv) (e : String) (r : HttpResponse (List Transition)) (t : Transition),
      fetchWithRetry env.transitionsGetAttempts 3 = .ok (some r) →
      selectTransition r.body = some t →
      fetchWithRetry env.postWithCommentAttempts 3 = .error e →
      closeJiraTicket env
        = (false, [CloseCall.getTransitions, CloseCall.postTransitionWithComment])) := by
  constructor
  · intro env
    unfold closeJiraTicket
    cases h1 : fetchWithRetry env.transitionsGetAttempts 3 with
    | error e => simp
    | ok o =>
      cases o with
      | none => simp
      | some r =>
        have hok := fetchWithRetry_ok_true _ r h1
        simp only [hok, if_true]
        cases hsel : selectTransition r.body with
        | none => simp
        | some t =>
          cases h2 : fetchWithRetry env.postWithCommentAttempts 3 with
          | error e => simp
          | ok o2 =>
            cases o2 with
            | none => simp
            | some cr =>
              have hcrok := fetchWithRetry_ok_true _ cr h2
              simp only [hcrok, if_true]
              simp
  · intro env e r t h1 hsel h2
    have hok := fetchWithRetry_ok_true _ r h1
    unfold closeJiraTicket
    rw [h1]
    simp only [hok, if_true]
    rw [hsel, h2]

/-- C6 amended witness: concrete environment where the combined POST fails
after all attempts and the function returns `false` without the fallback. -/
theorem closeJiraTicket_fallback_unreachable_witness :
    fetchWithRetry closeEnvCombinedFails.postWithCommentAttempts 3 = .error "HTTP 500" ∧
    closeJiraTicket closeEnvCombinedFails
      = (false, [CloseCall.getTransitions, CloseCall.postTransitionWithComment]) :=
  ⟨rfl, closeJiraTicket_fallback_unreachable.2 closeEnvCombinedFails "HTTP 500"
    ⟨true, 200, [⟨"1", "Done"⟩]⟩ ⟨"1", "Done"⟩ rfl rfl rfl⟩

/-- C7 counterexample: with 51 keys the first (full-size) batch search fails;
the second batch is never queried even though it would have returned
`ticketK50`, so `K50` gets no index entry — contradicting the claim that
processing continues with the remaining batches. -/
theorem existenceIndex_batch_failure_counterexample :
    buildIndexLoop jiraEnvFirstBatchFails (chunksOf 50 indexKeys51) ⟨[], []⟩
      = ⟨[], []⟩ ∧
    fetchWithRetry (jiraEnvFirstBatchFails.searchAttempts ["K50"]) 3
      = .ok (some ⟨true, 200, [ticketK50]⟩) ∧
    objGet (buildIndexLoop jiraEnvFirstBatchFails (chunksOf 50 indexKeys51)
        ⟨[], []⟩).map "K50" = none := by
  refine ⟨by decide, rfl, by decide⟩

/-- C7 amended: a failing batch search contributes no index entries and stops
the index build: the result equals what the successful prefix of batches
built, and the successors of the failing batch are never recorded. -/
theorem buildIndexLoop_stops_at_first_failure (env : JiraEnv)
    (pre : List (List String)) (b : List String) (post : List (List String))
    (st : IndexState) (e : String)
    (hpre : ∀ c ∈ pre, ∃ r, fetchWithRetry (env.searchAttempts c) 3 = .ok (some r))
    (hb : fetchWithRetry (env.searchAttempts b) 3 = .error e) :
    buildIndexLoop env (pre ++ b :: post) st = buildIndexLoop env pre st := by
  induction pre generalizing st with
  | nil =>
    simp only [List.nil_append, buildIndexLoop]
    rw [hb]
  | cons c pre2 ih =>
    obtain ⟨r, hr⟩ := hpre c (List.mem_cons_self ..)
    have hok := fetchWithRetry_ok_true _ r hr
    simp only [List.cons_append, buildIndexLoop]
    rw [hr]
    simp only [hok, if_true]
    exact ih _ (fun c2 h2 => hpre c2 (List.mem_cons_of_mem _ h2))

/-- C7 amended witness: the failing first batch of the 51-key scenario stops
the build at the empty prefix. -/
theorem buildIndexLoop_stops_at_first_failure_witness :
    fetchWithRetry (jiraEnvFirstBatchFails.searchAttempts (indexKeys51.take 50)) 3
      = .error "network down" ∧
    buildIndexLoop jiraEnvFirstBatchFails
        ([] ++ (indexKeys51.take 50) :: [indexKeys51.drop 50]) ⟨[], []⟩
      = buildIndexLoop jiraEnvFirstBatchFails [] ⟨[], []⟩ :=
  ⟨rfl,
   buildIndexLoop_stops_at_first_failure jiraEnvFirstBatchFails []
     (indexKeys51.take 50) [indexKeys51.drop 50] ⟨[], []⟩ "network down"
     (by simp) rfl⟩

/-- C8 counterexample: a user search returning TWO matches still caches the
accountId of the first match — contradicting the claim that a multiple-match
lookup leaves the email unresolved. -/
theorem lookupJiraUsers_multiple_matches_counterexample :
    fetchWithRetry (userEnvTwoMatches.userSearchAttempts "dev@example.com") 3
      = .ok (some ⟨true, 200, [⟨"acc-1"⟩, ⟨"acc-2"⟩]⟩) ∧
    lookupJiraUsers userEnvTwoMatches ["dev@example.com"] []
      = [("dev@example.com", "acc-1")] :=
  ⟨rfl, by decide⟩

/-- C8 amended: a user search returning zero matches leaves the email
unresolved — no cache entry is added and ticket creation proceeds without an
assignee — while a search returning one or more matches caches the FIRST
accountId of the FIRST returned user. -/
theorem lookupJiraUsers_zero_match_unresolved
    (env : UserEnv) (cache : List (String × String)) (email : String)
    (r : HttpResponse (List JiraUser))
    (hcache : objGet cache email = none)
    (hr : fetchWithRetry (env.userSearchAttempts email) 3 = .ok (some r)) :
    (r.body = [] →
      lookupStep env cache email = cache ∧
      assigneeAccountId (lookupStep env cache email) (some email) = none) ∧
    (∀ u rest, r.body = u :: rest →
      objGet (lookupStep env cache email) email = some u.accountId) := by
  have hok := fetchWithRetry_ok_true _ r hr
  have htr : truthyLookup cache email = none := by
    unfold truthyLookup
    rw [hcache]
  constructor
  · intro hb
    have hstep : lookupStep env cache email = cache := by
      unfold lookupStep
      rw [htr, hr]
      simp [hok, hb]
    refine ⟨hstep, ?_⟩
    rw [hstep]
    unfold assigneeAccountId
    exact htr
  · intro u rest hb
    unfold lookupStep
    rw [htr, hr]
    simp [hok, hb, objGet_objSet]

/-- C8 amended witness: zero matches add no entry and leave creation
unassigned; two matches cache the first accountId. -/
theorem lookupJiraUsers_zero_match_unresolved_witness :
    lookupStep userEnvNoMatch [] "dev@example.com" = [] ∧
    assigneeAccountId (lookupStep userEnvNoMatch [] "dev@example.com")
        (some "dev@example.com") = none ∧
    objGet (lookupStep userEnvTwoMatches [] "dev@example.com") "dev@example.com"
      = some "acc-1" :=
  have h0 := lookupJiraUsers_zero_match_unresolved userEnvNoMatch [] "dev@example.com"
    ⟨true, 200, []⟩ rfl rfl
  have h2 := lookupJiraUsers_zero_match_unresolved userEnvTwoMatches [] "dev@example.com"
    ⟨true, 200, [⟨"acc-1"⟩, ⟨"acc-2"⟩]⟩ rfl rfl
  ⟨(h0.1 rfl).1, (h0.1 rfl).2, h2.2 ⟨"acc-1"⟩ [⟨"acc-2"⟩] rfl⟩

/-- C9: what the code actually returns.  A crash inside the `try` block of
`createJiraTickets` yields a thrown `ReferenceError` — not the claimed
`{created, existing, error}` object — because the catch block reads the
try-scoped `createdTickets` binding; and the no-keys run of
`closeResolvedJiraTickets` returns a payload without the `ticketsWithErrors`
count, while every other non-fatal run includes it. -/
theorem outwardOperations_structured_returns :
    (∀ (env : JiraEnv) (e : String) (issues hotspots : List SonarItem),
      createJiraTickets env (some e) issues hotspots
        = .error "ReferenceError: createdTickets is not defined") ∧
    (∀ (env : SonarEnv) (crash : Option String) (tickets : List JiraSearchTicket)
        (closeFn : String → String → Bool),
      extractSonarKeysFromTickets tickets = [] →
      (closeResolvedJiraTicketsCore env crash tickets closeFn).ticketsWithErrors
        = none) ∧
    (∀ (env : SonarEnv) (crash : Option String) (tickets : List JiraSearchTicket)
        (closeFn : String → String → Bool),
      extractSonarKeysFromTickets tickets ≠ [] →
      ∃ nerr, (closeResolvedJiraTicketsCore env crash tickets closeFn).ticketsWithErrors
        = some nerr) := by
  refine ⟨fun _ _ _ _ => rfl, ?_, ?_⟩
  · intro env crash tickets closeFn h
    unfold closeResolvedJiraTicketsCore
    simp [h]
  · intro env crash tickets closeFn h
    unfold closeResolvedJiraTicketsCore
    simp [List.isEmpty_iff, h]

/-- C9 witness: a run whose only ticket has no reference field extracts no
keys and returns a payload lacking `ticketsWithErrors`; a crashed creation
run rejects with the `ReferenceError`. -/
theorem outwardOperations_structured_returns_witness :
    extractSonarKeysFromTickets [ticketNoRef] = [] ∧
    (closeResolvedJiraTicketsCore reconEnvDown none [ticketNoRef]
        (fun _ _ => true)).ticketsWithErrors = none ∧
    createJiraTickets jiraEnvExisting (some "TypeError: issues.map null entry")
        [] [] = .error "ReferenceError: createdTickets is not defined" :=
  ⟨rfl,
   outwardOperations_structured_returns.2.1 reconEnvDown none [ticketNoRef]
     (fun _ _ => true) rfl,
   outwardOperations_structured_returns.1 jiraEnvExisting
     "TypeError: issues.map null entry" [] []⟩

end SonarJira
